import Mathlib

/- Shallow embedding of src/pushTriggerCodeToAtlas.py.

   External effects (the git subprocess, the four HTTP requests, the JSON
   token extraction and the local file read) are modelled by a World record
   holding the outcome each external interaction would produce in this run.
   The run functions replay the script's control flow over those outcomes and
   record the externally visible events in order. -/

/-- An HTTP response as the requests library presents it to this script: a
    numeric status code and the response body text. -/
structure HttpResponse where
  status : Nat
  body : String
deriving DecidableEq

/-- The slice of os.environ read at lines 14-19 of the script; none models an
    absent environment variable. -/
structure Env where
  atlasGroupId : Option String
  atlasPublicKey : Option String
  atlasPrivateKey : Option String
  atlasAppId : Option String
  atlasFunctionId : Option String

/-- Python truthiness of an optional string: None and the empty string are
    falsy, every other string is truthy. Used by the all check at line 69 and
    the bearer-token check at line 105. -/
def truthy : Option String → Bool
  | none => false
  | some s => !(s == "")

/-- Line 69: all five configuration values are truthy. -/
def configOk (e : Env) : Bool :=
  truthy e.atlasGroupId && truthy e.atlasPublicKey && truthy e.atlasPrivateKey &&
    truthy e.atlasAppId && truthy e.atlasFunctionId

/-- Outcomes the external world would hand to this run. gitDiff: stdout of
    the git diff subprocess, or error for a nonzero exit status
    (subprocess.CalledProcessError, the one exception caught at line 35).
    ipify, accessListPost, tokenPost, updatePut: the HTTP response, or error
    for a raised network-level exception. tokenOfBody: the access_token field
    extracted from a successful token response at line 54, or none if that
    extraction raises. sourceFile: the contents of the watched file, or none
    if opening it raises. -/
structure World where
  gitDiff : Except Unit String
  ipify : Except Unit HttpResponse
  accessListPost : Except Unit HttpResponse
  tokenPost : Except Unit HttpResponse
  tokenOfBody : Option String
  sourceFile : Option String
  updatePut : Except Unit HttpResponse

/-- requests: Response.raise_for_status raises HTTPError exactly for status
    codes 400-599; every other status, 3xx included, passes silently. -/
def raisesForStatus (status : Nat) : Bool := decide (400 ≤ status ∧ status < 600)

/-- ASCII whitespace stripped by Python str.strip with no arguments. -/
def pyIsSpace (c : Char) : Bool :=
  c == ' ' || c == '\t' || c == '\n' || c == '\r' || c == '\x0b' || c == '\x0c'

/-- Python str.strip with no arguments: whitespace removed from both ends. -/
def pyStrip (s : String) : String :=
  ⟨((s.data.dropWhile pyIsSpace).reverse.dropWhile pyIsSpace).reverse⟩

/-- Python str.split for a one-character separator: splits at every
    occurrence keeping empty pieces; the empty string yields one empty piece. -/
def splitOnChar (sep : Char) : List Char → List (List Char)
  | [] => [[]]
  | c :: cs =>
    if c == sep then [] :: splitOnChar sep cs
    else
      match splitOnChar sep cs with
      | [] => [[c]]
      | piece :: rest => (c :: piece) :: rest

/-- Lines 10-11: the watched file and the watch set built from it. -/
def FUNCTION_SOURCE_FILE : String := "test.js"

/-- Line 11: FILES_TO_WATCH as a set. -/
def FILES_TO_WATCH : Finset String := {FUNCTION_SOURCE_FILE}

/-- Lines 23-37: run git diff --name-only HEAD~1 HEAD; on success the
    stripped stdout is split on newlines and collected into a set; on
    CalledProcessError the failure is printed and the empty set returned. -/
def get_changed_files (gitDiff : Except Unit String) : Finset String :=
  match gitDiff with
  | Except.ok out =>
      ((splitOnChar '\n' (pyStrip out).data).map fun l => (⟨l⟩ : String)).toFinset
  | Except.error _ => ∅

/-- Lines 39-63: POST to the token endpoint. An HTTPError from
    raise_for_status (status 400-599) and any other exception both yield
    None; otherwise the access_token field of the response JSON is returned. -/
def get_bearer_token (w : World) : Option String :=
  match w.tokenPost with
  | Except.error _ => none
  | Except.ok r => if raisesForStatus r.status then none else w.tokenOfBody

/-- The marker substring checked at line 97. -/
def dupMarker : String := "IP_ADDRESS_ALREADY_EXISTS"

/-- One element of the allowlist creation request body built at line 84. -/
structure AccessListEntry where
  ipAddress : String
  comment : String
  deleteAfterDate : String
deriving DecidableEq

/-- Line 84: the allowlist creation request body for a resolved IP. -/
def access_list_payload (ip : String) : List AccessListEntry :=
  [⟨ip, "Allowing CI/CD Runner for deployment", "P1H"⟩]

/-- True when needle matches at the start of hay. -/
def matchesAt : List Char → List Char → Bool
  | [], _ => true
  | _ :: _, [] => false
  | n :: ns, h :: hs => n == h && matchesAt ns hs

/-- Python substring membership over character lists. -/
def hasSub (needle : List Char) : List Char → Bool
  | [] => needle.isEmpty
  | c :: cs => matchesAt needle (c :: cs) || hasSub needle cs

/-- Python substring membership: needle in hay, as at line 97. -/
def strContainsSub (hay needle : String) : Bool := hasSub needle.data hay.data

/-- Externally visible events of a run, in order: the four HTTP requests, the
    fixed 15-second sleep at line 95, and the local read of the watched
    file. The allowlist event carries the request body it sends. -/
inductive Ev where
  | callIp
  | callAllowlist (payload : List AccessListEntry)
  | sleep15
  | callToken
  | readFile
  | callUpdate
deriving DecidableEq

/-- How a run ends. crashed models the single uncaught-exception path: a
    non-HTTPError exception from the allowlist POST (lines 87-101 catch only
    requests.exceptions.HTTPError). Every other outcome is a handled return
    from main. -/
inductive Terminal where
  | noOp
  | failedConfig
  | failedIp
  | failedAllowlist (status : Nat) (body : String)
  | failedToken
  | failedRead
  | failedUpdate (status : Nat) (body : String)
  | failedUpdateOther
  | done
  | crashed
deriving DecidableEq

/-- Lines 103-137, the straight-line tail of call_atlas_api after the
    allowlist stage: fetch the bearer token, halt if it is falsy (line 105);
    read the watched file, halt if that raises; PUT the update, where
    raise_for_status classifies 400-599 as HTTPError and both that and any
    other exception are caught and reported. -/
def afterAllowlist (w : World) : List Ev × Terminal :=
  if truthy (get_bearer_token w) = false then
    ([Ev.callToken], Terminal.failedToken)
  else
    match w.sourceFile with
    | none => ([Ev.callToken, Ev.readFile], Terminal.failedRead)
    | some _ =>
      match w.updatePut with
      | Except.error _ =>
          ([Ev.callToken, Ev.readFile, Ev.callUpdate], Terminal.failedUpdateOther)
      | Except.ok r =>
          if raisesForStatus r.status then
            ([Ev.callToken, Ev.readFile, Ev.callUpdate], Terminal.failedUpdate r.status r.body)
          else
            ([Ev.callToken, Ev.readFile, Ev.callUpdate], Terminal.done)

/-- Lines 65-137. The config check comes first (line 69); then the ipify GET
    whose body is used verbatim as the runner IP (line 75 performs no
    raise_for_status, so any response body flows through); then the allowlist
    POST: a status outside 400-599 takes the success branch including the 15
    second sleep, a 400 whose body holds the duplicate marker continues
    without the sleep, any other 400-599 status returns, and a non-HTTPError
    exception is uncaught. -/
def call_atlas_api (cfg : Env) (w : World) : List Ev × Terminal :=
  if configOk cfg = false then ([], Terminal.failedConfig)
  else
    match w.ipify with
    | Except.error _ => ([Ev.callIp], Terminal.failedIp)
    | Except.ok ipResp =>
      match w.accessListPost with
      | Except.error _ =>
          ([Ev.callIp, Ev.callAllowlist (access_list_payload ipResp.body)], Terminal.crashed)
      | Except.ok r =>
          if raisesForStatus r.status then
            if r.status == 400 && strContainsSub r.body dupMarker then
              (Ev.callIp :: Ev.callAllowlist (access_list_payload ipResp.body) ::
                 (afterAllowlist w).1,
               (afterAllowlist w).2)
            else
              ([Ev.callIp, Ev.callAllowlist (access_list_payload ipResp.body)],
               Terminal.failedAllowlist r.status r.body)
          else
            (Ev.callIp :: Ev.callAllowlist (access_list_payload ipResp.body) ::
               Ev.sleep15 :: (afterAllowlist w).1,
             (afterAllowlist w).2)

/-- Lines 140-150: deploy exactly when the watch set and the changed set are
    not disjoint, else print the no-action message and return. -/
def mainRun (cfg : Env) (w : World) : List Ev × Terminal :=
  if FILES_TO_WATCH ∩ get_changed_files w.gitDiff ≠ ∅ then call_atlas_api cfg w
  else ([], Terminal.noOp)

/-- Process exit status of the script: 0 for every handled return from main
    (the script never calls sys.exit), 1 when the one unhandled exception
    propagates out of main. -/
def exitCode : Terminal → Nat := fun t => if t = Terminal.crashed then 1 else 0

/-- Consume a run of leading decimal digits, returning how many were
    consumed and the remainder. -/
def takeDigits : List Char → Nat × List Char
  | [] => (0, [])
  | c :: cs =>
    if c.isDigit then
      match takeDigits cs with
      | (n, rest) => (n + 1, rest)
    else (0, c :: cs)

/-- Try to consume one duration component: one or more digits followed by the
    given designator letter. On failure nothing is consumed. -/
def tryComp (d : Char) (l : List Char) : Bool × List Char :=
  match takeDigits l with
  | (0, _) => (false, l)
  | (_ + 1, c :: cs) => if c == d then (true, cs) else (false, l)
  | (_ + 1, []) => (false, l)

/-- Modelled from the spec: validity of an ISO-8601 duration string, the form
    the spec requires for the time-boxed expiry. Grammar (ISO 8601 clause on
    durations, integer components): the letter P, then either a weeks
    component nW alone, or optional nY, nM, nD date components followed by an
    optional time part introduced by the designator T holding at least one of
    nH, nM, nS; at least one component must be present, and time components
    are only legal after the T. One hour is PT1H. -/
def spec_isValidISO8601Duration (s : String) : Bool :=
  match s.data with
  | 'P' :: rest =>
    match tryComp 'W' rest with
    | (true, rw) => rw.isEmpty
    | (false, _) =>
      match tryComp 'Y' rest with
      | (y, r1) =>
        match tryComp 'M' r1 with
        | (mo, r2) =>
          match tryComp 'D' r2 with
          | (d, r3) =>
            match r3 with
            | [] => y || mo || d
            | 'T' :: tr =>
              match tryComp 'H' tr with
              | (h, t1) =>
                match tryComp 'M' t1 with
                | (mi, t2) =>
                  match tryComp 'S' t2 with
                  | (sec, t3) => t3.isEmpty && (h || mi || sec)
            | _ => false
  | _ => false

/- Concrete configurations and worlds used to instantiate the theorems. -/

/-- A configuration with all five identifiers present and non-empty. -/
def goodCfg : Env := ⟨some "gid", some "pub", some "priv", some "app", some "fnid"⟩

/-- A configuration with every identifier absent. -/
def noneCfg : Env := ⟨none, none, none, none, none⟩

/-- A run in which the watched file changed and every external interaction
    succeeds: fields are gitDiff, ipify, accessListPost, tokenPost,
    tokenOfBody, sourceFile, updatePut. -/
def goodWorld : World :=
  ⟨Except.ok "test.js\nREADME.md", Except.ok ⟨200, "203.0.113.7"⟩,
   Except.ok ⟨201, "created"⟩, Except.ok ⟨200, "tokenresponse"⟩,
   some "tok123", some "exports = 1;", Except.ok ⟨200, "updated"⟩⟩

/-- Same successful world but only an unwatched file changed. -/
def quietWorld : World :=
  ⟨Except.ok "README.md", Except.ok ⟨200, "203.0.113.7"⟩,
   Except.ok ⟨201, "created"⟩, Except.ok ⟨200, "tokenresponse"⟩,
   some "tok123", some "exports = 1;", Except.ok ⟨200, "updated"⟩⟩

/-- Watched file changed, but the allowlist POST answers 300, a status that
    is neither 2xx nor in the 400-599 range raise_for_status reports. -/
def cex3World : World :=
  ⟨Except.ok "test.js", Except.ok ⟨200, "203.0.113.7"⟩,
   Except.ok ⟨300, "see other"⟩, Except.ok ⟨200, "tokenresponse"⟩,
   some "tok123", some "exports = 1;", Except.ok ⟨200, "updated"⟩⟩

/-- Watched file changed, but the ipify GET answers 500 with an error body. -/
def cex5World : World :=
  ⟨Except.ok "test.js", Except.ok ⟨500, "Internal Server Error"⟩,
   Except.ok ⟨201, "created"⟩, Except.ok ⟨200, "tokenresponse"⟩,
   some "tok123", some "exports = 1;", Except.ok ⟨200, "updated"⟩⟩

/-- The git comparison itself fails with a nonzero exit status. -/
def gitFailWorld : World :=
  ⟨Except.error (), Except.ok ⟨200, "203.0.113.7"⟩,
   Except.ok ⟨201, "created"⟩, Except.ok ⟨200, "tokenresponse"⟩,
   some "tok123", some "exports = 1;", Except.ok ⟨200, "updated"⟩⟩

/-- The git comparison succeeds with empty output. -/
def emptyDiffWorld : World :=
  ⟨Except.ok "", Except.ok ⟨200, "203.0.113.7"⟩,
   Except.ok ⟨201, "created"⟩, Except.ok ⟨200, "tokenresponse"⟩,
   some "tok123", some "exports = 1;", Except.ok ⟨200, "updated"⟩⟩

/- Helper lemmas about the run functions. -/

/-- The token-and-later tail records one of three event lists. -/
theorem afterAllowlist_fst_cases (w : World) :
    (afterAllowlist w).1 = [Ev.callToken] ∨
    (afterAllowlist w).1 = [Ev.callToken, Ev.readFile] ∨
    (afterAllowlist w).1 = [Ev.callToken, Ev.readFile, Ev.callUpdate] := by
  unfold afterAllowlist
  split
  · exact Or.inl rfl
  · split
    · exact Or.inr (Or.inl rfl)
    · split
      · exact Or.inr (Or.inr rfl)
      · split
        · exact Or.inr (Or.inr rfl)
        · exact Or.inr (Or.inr rfl)

/-- The token-and-later tail never ends in the terminals owned by earlier
    stages. -/
theorem afterAllowlist_ne (w : World) :
    (afterAllowlist w).2 ≠ Terminal.noOp ∧ (afterAllowlist w).2 ≠ Terminal.crashed ∧
    (afterAllowlist w).2 ≠ Terminal.failedConfig ∧ (afterAllowlist w).2 ≠ Terminal.failedIp := by
  unfold afterAllowlist
  split
  · simp
  · split
    · simp
    · split
      · simp
      · split <;> simp

/-- The update PUT happens in the tail only after a truthy bearer token and a
    successful read of the watched file. -/
theorem afterAllowlist_update_mem (w : World) (h : Ev.callUpdate ∈ (afterAllowlist w).1) :
    truthy (get_bearer_token w) = true ∧ w.sourceFile ≠ none := by
  by_cases ht : truthy (get_bearer_token w) = false
  · simp [afterAllowlist, ht] at h
  · have ht' : truthy (get_bearer_token w) = true := by
      revert ht; cases truthy (get_bearer_token w) <;> simp
    rcases hs : w.sourceFile with _ | src
    · simp [afterAllowlist, ht, hs] at h
    · exact ⟨ht', by simp [hs]⟩

/-- The token POST is always the first event of the tail. -/
theorem afterAllowlist_token_mem (w : World) : Ev.callToken ∈ (afterAllowlist w).1 := by
  rcases afterAllowlist_fst_cases w with h | h | h <;> simp [h]

/-- The IP request never recurs in the tail. -/
theorem afterAllowlist_no_callIp (w : World) : Ev.callIp ∉ (afterAllowlist w).1 := by
  rcases afterAllowlist_fst_cases w with h | h | h <;> simp [h]

/-- The deployment sequence never ends as the no-change terminal. -/
theorem call_atlas_api_ne_noOp (cfg : Env) (w : World) :
    (call_atlas_api cfg w).2 ≠ Terminal.noOp := by
  by_cases hc : configOk cfg = false
  · simp [call_atlas_api, hc]
  · rcases hip : w.ipify with e | ipr
    · simp [call_atlas_api, hc, hip]
    · rcases hal : w.accessListPost with e | r
      · simp [call_atlas_api, hc, hip, hal]
      · by_cases hr : raisesForStatus r.status = true
        · by_cases hd : (r.status == 400 && strContainsSub r.body dupMarker) = true
          · simp [call_atlas_api, hc, hip, hal, hr, hd, (afterAllowlist_ne w).1]
          · simp [call_atlas_api, hc, hip, hal, hr, hd]
        · simp [call_atlas_api, hc, hip, hal, hr, (afterAllowlist_ne w).1]

/-- With the configuration present, the deployment sequence always performs
    the IP request. -/
theorem call_atlas_api_callIp (cfg : Env) (w : World) (hc : configOk cfg = true) :
    Ev.callIp ∈ (call_atlas_api cfg w).1 := by
  rcases hip : w.ipify with e | ipr
  · simp [call_atlas_api, hc, hip]
  · rcases hal : w.accessListPost with e | r
    · simp [call_atlas_api, hc, hip, hal]
    · by_cases hr : raisesForStatus r.status = true
      · by_cases hd : (r.status == 400 && strContainsSub r.body dupMarker) = true
        · simp [call_atlas_api, hc, hip, hal, hr, hd]
        · simp [call_atlas_api, hc, hip, hal, hr, hd]
      · simp [call_atlas_api, hc, hip, hal, hr]

/-- The allowlist POST ended in HTTP success (no raise) or in the tolerated
    duplicate-IP classification. -/
def allowlistOkOrDup (w : World) : Prop :=
  ∃ r, w.accessListPost = Except.ok r ∧
    (raisesForStatus r.status = false ∨
      (r.status = 400 ∧ strContainsSub r.body dupMarker = true))

/-- The update PUT happens only after allowlist success-or-duplicate, a
    truthy bearer token, and a successful read of the watched file. -/
theorem call_atlas_api_update (cfg : Env) (w : World)
    (h : Ev.callUpdate ∈ (call_atlas_api cfg w).1) :
    allowlistOkOrDup w ∧ truthy (get_bearer_token w) = true ∧ w.sourceFile ≠ none := by
  by_cases hc : configOk cfg = false
  · simp [call_atlas_api, hc] at h
  · rcases hip : w.ipify with e | ipr
    · simp [call_atlas_api, hc, hip] at h
    · rcases hal : w.accessListPost with e | r
      · simp [call_atlas_api, hc, hip, hal] at h
      · by_cases hr : raisesForStatus r.status = true
        · by_cases hd : (r.status == 400 && strContainsSub r.body dupMarker) = true
          · simp [call_atlas_api, hc, hip, hal, hr, hd] at h
            have hm := afterAllowlist_update_mem w h
            have hd' : r.status = 400 ∧ strContainsSub r.body dupMarker = true := by
              revert hd; simp
            exact ⟨⟨r, hal, Or.inr hd'⟩, hm⟩
          · simp [call_atlas_api, hc, hip, hal, hr, hd] at h
        · have hr' : raisesForStatus r.status = false := by
            revert hr; cases raisesForStatus r.status <;> simp
          simp [call_atlas_api, hc, hip, hal, hr'] at h
          have hm := afterAllowlist_update_mem w h
          exact ⟨⟨r, hal, Or.inl hr'⟩, hm⟩

/-- The run crashes (uncaught exception) exactly when it was deploying with
    full configuration, had an IP response, and the allowlist POST raised a
    network-level error. -/
theorem call_atlas_api_crashed_iff (cfg : Env) (w : World) :
    (call_atlas_api cfg w).2 = Terminal.crashed ↔
      configOk cfg = true ∧ (∃ r, w.ipify = Except.ok r) ∧
        w.accessListPost = Except.error () := by
  by_cases hc : configOk cfg = false
  · simp [call_atlas_api, hc]
  · have hc' : configOk cfg = true := by
      revert hc; cases configOk cfg <;> simp
    rcases hip : w.ipify with e | ipr
    · cases e
      simp [call_atlas_api, hc', hip]
    · rcases hal : w.accessListPost with e | r
      · cases e
        simp [call_atlas_api, hc', hip, hal]
      · by_cases hr : raisesForStatus r.status = true
        · by_cases hd : (r.status == 400 && strContainsSub r.body dupMarker) = true
          · simp [call_atlas_api, hc', hip, hal, hr, hd, (afterAllowlist_ne w).2.1]
          · simp [call_atlas_api, hc', hip, hal, hr, hd]
        · simp [call_atlas_api, hc', hip, hal, hr, (afterAllowlist_ne w).2.1]

/-- When the watch set meets the changed set, main runs the deployment
    sequence. -/
theorem mainRun_deploy (cfg : Env) (w : World)
    (h : FILES_TO_WATCH ∩ get_changed_files w.gitDiff ≠ ∅) :
    mainRun cfg w = call_atlas_api cfg w := by
  simp [mainRun, h]

/-- When the watch set misses the changed set, main takes no action. -/
theorem mainRun_noop (cfg : Env) (w : World)
    (h : FILES_TO_WATCH ∩ get_changed_files w.gitDiff = ∅) :
    mainRun cfg w = ([], Terminal.noOp) := by
  simp [mainRun, h]

/- Claim theorems. -/

/-- Claim C1, counterexample: with every configuration identifier absent and
    the watched file changed, the sets intersect, yet the run neither reaches
    Resolving (no IP request happens) nor terminates as NoOp, refuting the
    claimed equivalence as stated. -/
theorem C1_counterexample :
    FILES_TO_WATCH ∩ get_changed_files goodWorld.gitDiff ≠ ∅ ∧
    Ev.callIp ∉ (mainRun noneCfg goodWorld).1 ∧
    (mainRun noneCfg goodWorld).2 ≠ Terminal.noOp := by decide

/-- Claim C1 (amended): the run terminates as NoOp exactly when the ChangeSet
    and WatchList are disjoint, and in that case no call of any kind happens;
    provided the required configuration is present, the run reaches Resolving
    (the IP request) exactly when they intersect. -/
theorem C1_noop_iff_disjoint (cfg : Env) (w : World) :
    ((mainRun cfg w).2 = Terminal.noOp ↔
      FILES_TO_WATCH ∩ get_changed_files w.gitDiff = ∅) ∧
    (FILES_TO_WATCH ∩ get_changed_files w.gitDiff = ∅ →
      mainRun cfg w = ([], Terminal.noOp)) ∧
    (configOk cfg = true →
      (Ev.callIp ∈ (mainRun cfg w).1 ↔
        FILES_TO_WATCH ∩ get_changed_files w.gitDiff ≠ ∅)) := by
  by_cases hd : FILES_TO_WATCH ∩ get_changed_files w.gitDiff = ∅
  · rw [mainRun_noop cfg w hd]
    exact ⟨by simp [hd], fun _ => rfl, fun hc => by simp [hd]⟩
  · rw [mainRun_deploy cfg w hd]
    exact ⟨by simp [call_atlas_api_ne_noOp cfg w, hd],
      fun h => absurd h hd,
      fun hc => by simp [hd, call_atlas_api_callIp cfg w hc]⟩

/-- Claim C1, witness of the amended theorem at a concrete run. -/
theorem C1_witness :
    ((mainRun goodCfg goodWorld).2 = Terminal.noOp ↔
      FILES_TO_WATCH ∩ get_changed_files goodWorld.gitDiff = ∅) ∧
    (Ev.callIp ∈ (mainRun goodCfg goodWorld).1 ↔
      FILES_TO_WATCH ∩ get_changed_files goodWorld.gitDiff ≠ ∅) :=
  ⟨(C1_noop_iff_disjoint goodCfg goodWorld).1,
   (C1_noop_iff_disjoint goodCfg goodWorld).2.2 (by decide)⟩

/-- Claim C2: the update PUT is recorded only when the allowlist stage ended
    in success or duplicate classification, the broker produced a truthy
    bearer token, and the watched file was read; hence any fatal earlier
    failure leaves the run without a function-update request. -/
theorem C2_update_guarded (cfg : Env) (w : World)
    (h : Ev.callUpdate ∈ (mainRun cfg w).1) :
    allowlistOkOrDup w ∧ truthy (get_bearer_token w) = true ∧ w.sourceFile ≠ none := by
  by_cases hd : FILES_TO_WATCH ∩ get_changed_files w.gitDiff = ∅
  · rw [mainRun_noop cfg w hd] at h
    simp at h
  · rw [mainRun_deploy cfg w hd] at h
    exact call_atlas_api_update cfg w h

/-- Claim C2, witness at a run that does perform the update. -/
theorem C2_witness :
    allowlistOkOrDup goodWorld ∧ truthy (get_bearer_token goodWorld) = true ∧
      goodWorld.sourceFile ≠ none :=
  C2_update_guarded goodCfg goodWorld (by decide)

/-- Claim C3, counterexample: an allowlist response with status 300 is not
    2xx and does not carry the duplicate marker, yet the token stage is still
    reached and the run even finishes as Done, because raise_for_status only
    raises for statuses 400-599. -/
theorem C3_counterexample :
    ((300 : Nat) < 200 ∨ 299 < (300 : Nat)) ∧
    strContainsSub "see other" dupMarker = false ∧
    Ev.callToken ∈ (mainRun goodCfg cex3World).1 ∧
    (mainRun goodCfg cex3World).2 = Terminal.done := by decide

/-- Claim C3 (amended): a response with status outside 400-599 (which
    includes every 2xx) and a 400 whose body contains the duplicate marker
    both lead to the token stage; any other 400-599 response ends the run as
    Failed before the token stage with status and body surfaced. -/
theorem C3_allowlist_classification (cfg : Env) (w : World) (r : HttpResponse)
    (hc : configOk cfg = true)
    (hd : FILES_TO_WATCH ∩ get_changed_files w.gitDiff ≠ ∅)
    (hip : ∃ ipr, w.ipify = Except.ok ipr)
    (hal : w.accessListPost = Except.ok r) :
    ((raisesForStatus r.status = false ∨
        (r.status = 400 ∧ strContainsSub r.body dupMarker = true)) →
      Ev.callToken ∈ (mainRun cfg w).1) ∧
    ((raisesForStatus r.status = true ∧
        ¬(r.status = 400 ∧ strContainsSub r.body dupMarker = true)) →
      (mainRun cfg w).2 = Terminal.failedAllowlist r.status r.body ∧
        Ev.callToken ∉ (mainRun cfg w).1) := by
  obtain ⟨ipr, hip⟩ := hip
  rw [mainRun_deploy cfg w hd]
  constructor
  · rintro (hok | ⟨h4, hdup⟩)
    · simp [call_atlas_api, hc, hip, hal, hok, afterAllowlist_token_mem w]
    · have hr : raisesForStatus r.status = true := by rw [h4]; decide
      have hb : (r.status == 400 && strContainsSub r.body dupMarker) = true := by
        simp [h4, hdup]
      simp [call_atlas_api, hc, hip, hal, hr, hb, afterAllowlist_token_mem w]
  · rintro ⟨hr, hnd⟩
    have hb : (r.status == 400 && strContainsSub r.body dupMarker) = false := by
      by_cases h4 : r.status = 400
      · have hx : strContainsSub r.body dupMarker = false := by
          cases hxx : strContainsSub r.body dupMarker
          · rfl
          · exact absurd ⟨h4, hxx⟩ hnd
        simp [h4, hx]
      · simp [h4]
    simp [call_atlas_api, hc, hip, hal, hr, hb]

/-- Claim C3, witness of the amended theorem: a 201 allowlist response leads
    to the token stage. -/
theorem C3_witness :
    Ev.callToken ∈ (mainRun goodCfg goodWorld).1 :=
  (C3_allowlist_classification goodCfg goodWorld ⟨201, "created"⟩ (by decide) (by decide)
      ⟨⟨200, "203.0.113.7"⟩, rfl⟩ rfl).1 (Or.inl (by decide))

/-- Claim C4: the allowlist request body does carry the resolved IP and the
    fixed comment, but its expiry string P1H is not a valid ISO-8601
    duration: time components require the T designator, one hour being PT1H.
    The payload recorded by a successful run shows the constant. -/
theorem C4_expiry_not_iso8601 :
    access_list_payload "203.0.113.7" =
      [⟨"203.0.113.7", "Allowing CI/CD Runner for deployment", "P1H"⟩] ∧
    Ev.callAllowlist (access_list_payload "203.0.113.7") ∈ (mainRun goodCfg goodWorld).1 ∧
    spec_isValidISO8601Duration "P1H" = false ∧
    spec_isValidISO8601Duration "PT1H" = true := by decide

/-- Claim C5, counterexample: the IP-echo endpoint answers 500, a non-2xx
    response, yet the orchestration is not aborted: the error body is used
    verbatim as the address of the allowlist request, because the script
    never calls raise_for_status on this response. -/
theorem C5_counterexample :
    ((500 : Nat) < 200 ∨ 299 < (500 : Nat)) ∧
    cex5World.ipify = Except.ok ⟨500, "Internal Server Error"⟩ ∧
    Ev.callAllowlist (access_list_payload "Internal Server Error") ∈
      (mainRun goodCfg cex5World).1 ∧
    (mainRun goodCfg cex5World).2 ≠ Terminal.failedIp :=
  ⟨by decide, rfl, by decide, by decide⟩

/-- Claim C5 (amended): a network error on the IP-echo request is fatal; the
    run ends right there with only the IP attempt and no allowlist, token or
    update call; the IP request is made exactly once, never retried; but a
    non-2xx response is not detected: whatever body arrived is used as the
    address and the run continues to the allowlist POST. -/
theorem C5_ip_request_policy (cfg : Env) (w : World)
    (hc : configOk cfg = true)
    (hd : FILES_TO_WATCH ∩ get_changed_files w.gitDiff ≠ ∅) :
    (w.ipify = Except.error () →
      mainRun cfg w = ([Ev.callIp], Terminal.failedIp)) ∧
    (∀ r, w.ipify = Except.ok r →
      Ev.callAllowlist (access_list_payload r.body) ∈ (mainRun cfg w).1) ∧
    (mainRun cfg w).1.count Ev.callIp = 1 := by
  rw [mainRun_deploy cfg w hd]
  have h0 : (afterAllowlist w).1.count Ev.callIp = 0 :=
    List.count_eq_zero.mpr (afterAllowlist_no_callIp w)
  refine ⟨fun hip => by simp [call_atlas_api, hc, hip], fun r hip => ?_, ?_⟩
  · rcases hal : w.accessListPost with e | ar
    · simp [call_atlas_api, hc, hip, hal]
    · by_cases hr : raisesForStatus ar.status = true
      · by_cases hb : (ar.status == 400 && strContainsSub ar.body dupMarker) = true
        · simp [call_atlas_api, hc, hip, hal, hr, hb]
        · simp [call_atlas_api, hc, hip, hal, hr, hb]
      · simp [call_atlas_api, hc, hip, hal, hr]
  · rcases hip : w.ipify with e | ipr
    · simp [call_atlas_api, hc, hip]
    · rcases hal : w.accessListPost with e | ar
      · simp [call_atlas_api, hc, hip, hal]
      · by_cases hr : raisesForStatus ar.status = true
        · by_cases hb : (ar.status == 400 && strContainsSub ar.body dupMarker) = true
          · simp [call_atlas_api, hc, hip, hal, hr, hb, List.count_cons, h0]
          · simp [call_atlas_api, hc, hip, hal, hr, hb]
        · simp [call_atlas_api, hc, hip, hal, hr, List.count_cons, h0]

/-- Claim C5, witness of the amended theorem at a concrete run. -/
theorem C5_witness :
    (mainRun goodCfg goodWorld).1.count Ev.callIp = 1 :=
  (C5_ip_request_policy goodCfg goodWorld (by decide) (by decide)).2.2

/-- Claim C6: when the watched file changed and every external interaction
    succeeds, the run performs exactly the IP request, one allowlist POST,
    the 15-second settle sleep, one token POST, the file read and one update
    PUT, in that order, and ends Done. -/
theorem C6_happy_path (cfg : Env) (w : World) (ipr ar tr ur : HttpResponse)
    (tok src : String)
    (hc : configOk cfg = true)
    (hd : FILES_TO_WATCH ∩ get_changed_files w.gitDiff ≠ ∅)
    (hip : w.ipify = Except.ok ipr)
    (hal : w.accessListPost = Except.ok ar) (hal2 : 200 ≤ ar.status ∧ ar.status ≤ 299)
    (htk : w.tokenPost = Except.ok tr) (htk2 : 200 ≤ tr.status ∧ tr.status ≤ 299)
    (hto : w.tokenOfBody = some tok) (htne : tok ≠ "")
    (hsf : w.sourceFile = some src)
    (hup : w.updatePut = Except.ok ur) (hup2 : 200 ≤ ur.status ∧ ur.status ≤ 299) :
    mainRun cfg w =
      ([Ev.callIp, Ev.callAllowlist (access_list_payload ipr.body), Ev.sleep15,
        Ev.callToken, Ev.readFile, Ev.callUpdate], Terminal.done) := by
  have hra : raisesForStatus ar.status = false := by
    simp [raisesForStatus]; omega
  have hrt : raisesForStatus tr.status = false := by
    simp [raisesForStatus]; omega
  have hru : raisesForStatus ur.status = false := by
    simp [raisesForStatus]; omega
  have hbt : get_bearer_token w = some tok := by
    simp [get_bearer_token, htk, hrt, hto]
  have htr : truthy (get_bearer_token w) = true := by
    simp [hbt, truthy, htne]
  rw [mainRun_deploy cfg w hd]
  simp [call_atlas_api, hc, hip, hal, hra, afterAllowlist, htr, hsf, hup, hru]

/-- Claim C6, witness at the concrete all-success run. -/
theorem C6_witness :
    mainRun goodCfg goodWorld =
      ([Ev.callIp, Ev.callAllowlist (access_list_payload "203.0.113.7"), Ev.sleep15,
        Ev.callToken, Ev.readFile, Ev.callUpdate], Terminal.done) :=
  C6_happy_path goodCfg goodWorld ⟨200, "203.0.113.7"⟩ ⟨201, "created"⟩
    ⟨200, "tokenresponse"⟩ ⟨200, "updated"⟩ "tok123" "exports = 1;"
    (by decide) (by decide) rfl rfl (by decide) rfl (by decide) rfl (by decide)
    rfl rfl (by decide)

/-- Claim C7: when the history comparison fails, the detector yields the
    empty set, the run takes no action and performs no call, and the terminal
    state equals the one of a run whose comparison succeeded with empty
    output. -/
theorem C7_git_failure_noop (cfg : Env) (w : World) (h : w.gitDiff = Except.error ()) :
    get_changed_files w.gitDiff = ∅ ∧ mainRun cfg w = ([], Terminal.noOp) ∧
    (mainRun cfg w).2 =
      (mainRun cfg ⟨Except.ok "", w.ipify, w.accessListPost, w.tokenPost,
        w.tokenOfBody, w.sourceFile, w.updatePut⟩).2 := by
  have h1 : get_changed_files w.gitDiff = ∅ := by rw [h]; rfl
  have h2 : mainRun cfg w = ([], Terminal.noOp) :=
    mainRun_noop cfg w (by rw [h1]; simp)
  have h3 : mainRun cfg ⟨Except.ok "", w.ipify, w.accessListPost, w.tokenPost,
      w.tokenOfBody, w.sourceFile, w.updatePut⟩ = ([], Terminal.noOp) :=
    mainRun_noop cfg _ (show FILES_TO_WATCH ∩ get_changed_files (Except.ok "") = ∅ by decide)
  exact ⟨h1, h2, by rw [h2, h3]⟩

/-- Claim C7, witness at a concrete failed comparison. -/
theorem C7_witness :
    get_changed_files gitFailWorld.gitDiff = ∅ ∧
    mainRun goodCfg gitFailWorld = ([], Terminal.noOp) ∧
    (mainRun goodCfg gitFailWorld).2 =
      (mainRun goodCfg ⟨Except.ok "", gitFailWorld.ipify, gitFailWorld.accessListPost,
        gitFailWorld.tokenPost, gitFailWorld.tokenOfBody, gitFailWorld.sourceFile,
        gitFailWorld.updatePut⟩).2 :=
  C7_git_failure_noop goodCfg gitFailWorld rfl

/-- Claim C8: every run that does not end in the single uncaught-exception
    path exits with status 0, failure outcomes included; and that uncaught
    path is exactly a deploying, fully configured run whose allowlist POST
    raised a non-HTTPError exception. -/
theorem C8_exit_success (cfg : Env) (w : World) :
    ((mainRun cfg w).2 ≠ Terminal.crashed → exitCode (mainRun cfg w).2 = 0) ∧
    ((mainRun cfg w).2 = Terminal.crashed ↔
      FILES_TO_WATCH ∩ get_changed_files w.gitDiff ≠ ∅ ∧ configOk cfg = true ∧
        (∃ r, w.ipify = Except.ok r) ∧ w.accessListPost = Except.error ()) := by
  constructor
  · intro h
    simp [exitCode, h]
  · by_cases hd : FILES_TO_WATCH ∩ get_changed_files w.gitDiff = ∅
    · rw [mainRun_noop cfg w hd]
      simp [hd]
    · rw [mainRun_deploy cfg w hd]
      rw [call_atlas_api_crashed_iff cfg w]
      simp [hd]

/-- Claim C8, witness at a concrete handled run. -/
theorem C8_witness : exitCode (mainRun goodCfg goodWorld).2 = 0 :=
  (C8_exit_success goodCfg goodWorld).1 (by decide)

/-- Claim C9: a successful comparison with empty output yields the singleton
    set holding the empty string, not the empty set; the empty string is not
    watched, so the run still terminates as NoOp. -/
theorem C9_empty_diff (cfg : Env) (w : World) (h : w.gitDiff = Except.ok "") :
    get_changed_files w.gitDiff = {""} ∧
    get_changed_files w.gitDiff ≠ (∅ : Finset String) ∧
    "" ∉ FILES_TO_WATCH ∧
    mainRun cfg w = ([], Terminal.noOp) := by
  have h1 : get_changed_files w.gitDiff = {""} := by rw [h]; decide
  refine ⟨h1, by rw [h1]; decide, by decide, mainRun_noop cfg w ?_⟩
  rw [h1]; decide

/-- Claim C9, witness at a concrete empty diff. -/
theorem C9_witness :
    get_changed_files emptyDiffWorld.gitDiff = {""} ∧
    get_changed_files emptyDiffWorld.gitDiff ≠ (∅ : Finset String) ∧
    "" ∉ FILES_TO_WATCH ∧
    mainRun goodCfg emptyDiffWorld = ([], Terminal.noOp) :=
  C9_empty_diff goodCfg emptyDiffWorld rfl

/-- Claim C10: the configuration check runs only after change detection. A
    disjoint ChangeSet ends the run as NoOp with no event at all, whatever
    the configuration; an intersecting ChangeSet with incomplete
    configuration aborts with the missing-configuration terminal before any
    network call. -/
theorem C10_config_after_detection (cfg : Env) (w : World) :
    (FILES_TO_WATCH ∩ get_changed_files w.gitDiff = ∅ →
      mainRun cfg w = ([], Terminal.noOp)) ∧
    (FILES_TO_WATCH ∩ get_changed_files w.gitDiff ≠ ∅ → configOk cfg = false →
      mainRun cfg w = ([], Terminal.failedConfig)) := by
  refine ⟨mainRun_noop cfg w, fun hd hc => ?_⟩
  rw [mainRun_deploy cfg w hd]
  simp [call_atlas_api, hc]

/-- Claim C10, witness: with every identifier absent, a disjoint change set
    still ends as NoOp, and an intersecting one aborts on configuration. -/
theorem C10_witness :
    mainRun noneCfg quietWorld = ([], Terminal.noOp) ∧
    mainRun noneCfg goodWorld = ([], Terminal.failedConfig) :=
  ⟨(C10_config_after_detection noneCfg quietWorld).1 (by decide),
   (C10_config_after_detection noneCfg goodWorld).2 (by decide) (by decide)⟩

